import Mathlib

/-!
Verification development for the CSPM anomaly-detection repository
(`WebForCSPM/server` together with the earlier
`PreviousSubmissions/FirstPrototype/server`).  The Python source is shallowly
embedded: pure functions become Lean functions on `String`/`Int`/`ℚ`, the
document store becomes an explicit state record, and code that can raise an
exception returns `Option`.  Definitions come first, followed by the
theorems about them.
-/

namespace CSPM

/-! ## String helpers modelling the Python primitives -/

/-- Model of Python `str.isdigit` restricted to ASCII strings: true iff the
string is nonempty and every character is a decimal digit. -/
def pyIsDigit (s : String) : Bool :=
  !s.toList.isEmpty && s.toList.all Char.isDigit

/-- Numeric value of a list of decimal digits, most significant first. -/
def digitsVal (l : List Char) : Nat :=
  l.foldl (fun n c => 10 * n + (c.toNat - 48)) 0

/-- Model of Python `int()` applied to a string: an optional sign followed by
decimal digits parses to the corresponding integer, anything else raises
`ValueError` (here: `none`).  Whitespace padding and underscore digit
separators are not modelled; no input in this development uses them. -/
def pyInt (s : String) : Option Int :=
  match s.toList with
  | [] => none
  | c :: cs =>
    if c == '-' then
      if !cs.isEmpty && cs.all Char.isDigit then some (-(digitsVal cs : Int)) else none
    else if c == '+' then
      if !cs.isEmpty && cs.all Char.isDigit then some ((digitsVal cs : Int)) else none
    else if (c :: cs).all Char.isDigit then some (digitsVal (c :: cs))
    else none

/-- Split a character list at every occurrence of the separator, keeping
empty segments (the behaviour of Python `str.split` with an explicit
one-character separator). -/
def splitChar (sep : Char) : List Char → List (List Char)
  | [] => [[]]
  | c :: cs =>
    if c == sep then [] :: splitChar sep cs
    else
      match splitChar sep cs with
      | [] => [[c]]
      | p :: ps => (c :: p) :: ps

/-- Model of Python `str.split(sep)` for a one-character separator. -/
def pySplit (s : String) (sep : Char) : List String :=
  (splitChar sep s.toList).map (fun l => String.mk l)

/-- Whitespace characters removed by Python `str.strip()` (ASCII subset). -/
def pyIsSpace (c : Char) : Bool :=
  c == ' ' || c == '\t' || c == '\n' || c == '\r'

/-- Model of Python `str.strip()`: drop leading and trailing whitespace. -/
def pyStrip (s : String) : String :=
  String.mk (((s.toList.dropWhile pyIsSpace).reverse.dropWhile pyIsSpace).reverse)

/-- Test whether the first character list is an initial segment of the
second. -/
def leadsWith : List Char → List Char → Bool
  | [], _ => true
  | _ :: _, [] => false
  | a :: as, b :: bs => a == b && leadsWith as bs

/-- Test whether the first character list occurs contiguously inside the
second. -/
def occursIn (pat : List Char) : List Char → Bool
  | [] => leadsWith pat []
  | b :: bs => leadsWith pat (b :: bs) || occursIn pat bs

/-- Substring test: `containsSub s pat` is true iff `pat` occurs inside `s`
(models Python's `in` operator on strings and `re.search` on a literal). -/
def containsSub (s pat : String) : Bool :=
  occursIn pat.toList s.toList

/-! ## Model ensemble scorer (`WebForCSPM/server/model.py`)

The three loaded models produce opaque numeric signals (an isolation-forest
decision value, a random-forest positive-class probability and an autoencoder
reconstruction error).  `score_single_log_corrected` is embedded as a function
of those signals and of the two calibration tables; float arithmetic is
modelled by exact rational arithmetic. -/

/-- Calibration table loaded from `iso_thresholds.joblib`. -/
structure IsoThresholds where
  threshold_99_9 : ℚ
  threshold_99 : ℚ
  threshold_95 : ℚ
  min_score : ℚ

/-- Calibration table loaded from `ae_thresholds.joblib`. -/
structure AeThresholds where
  threshold_99_9 : ℚ
  threshold_99 : ℚ
  threshold_95 : ℚ
  mean_error : ℚ

/-- Four-tier percentile ladder for the isolation-forest signal
(`model.py` lines 146-154).  `iso_score` is the sign-inverted raw decision
value. -/
def iso_risk (t : IsoThresholds) (iso_score : ℚ) : ℚ :=
  if t.threshold_99_9 ≤ iso_score then 100
  else if t.threshold_99 ≤ iso_score then 80
  else if t.threshold_95 ≤ iso_score then 40
  else max 0 ((iso_score - t.min_score) / (t.threshold_95 - t.min_score) * 30)

/-- Random-forest sub-score: positive-class probability scaled to 0-100
(`model.py` lines 156-157). -/
def rf_risk (rf_pred_proba : ℚ) : ℚ :=
  rf_pred_proba * 100

/-- Four-tier percentile ladder for the autoencoder reconstruction error
(`model.py` lines 167-175). -/
def ae_risk (t : AeThresholds) (ae_error : ℚ) : ℚ :=
  if t.threshold_99_9 ≤ ae_error then 100
  else if t.threshold_99 ≤ ae_error then 80
  else if t.threshold_95 ≤ ae_error then 40
  else max 0 ((ae_error - t.mean_error) / (t.threshold_95 - t.mean_error) * 30)

/-- Model of Python's built-in `round`: round half to even. -/
def pyRound (q : ℚ) : ℤ :=
  let f := ⌊q⌋
  let r := q - (f : ℚ)
  if r < 1/2 then f
  else if 1/2 < r then f + 1
  else if f % 2 = 0 then f else f + 1

/-- Blending and shaping of the three sub-scores and final rounding
(`model.py` lines 177-186).  Note the source applies no clamp after the
shaping step. -/
def score_single_log_corrected (it : IsoThresholds) (aet : AeThresholds)
    (iso_score rf_pred_proba ae_error : ℚ) : ℤ :=
  let a := iso_risk it iso_score
  let b := rf_risk rf_pred_proba
  let c := ae_risk aet ae_error
  let final := 1/2 * a + 3/10 * b + 1/5 * c
  let shaped := if final < 20 then final * (1/2)
    else if 80 < final then final * (6/5)
    else final
  pyRound shaped

/-- Claimed behaviour for C1: the shaped score clamped to the interval
[0,100] before rounding, as the specification describes it. -/
def score_single_log_clamped (it : IsoThresholds) (aet : AeThresholds)
    (iso_score rf_pred_proba ae_error : ℚ) : ℤ :=
  let a := iso_risk it iso_score
  let b := rf_risk rf_pred_proba
  let c := ae_risk aet ae_error
  let final := 1/2 * a + 3/10 * b + 1/5 * c
  let shaped := if final < 20 then final * (1/2)
    else if 80 < final then final * (6/5)
    else final
  pyRound (min 100 (max 0 shaped))

/-! ## Risk classifier (`MultiModelCSPM.evaluate_log`, `model.py` 287-317) -/

/-- Risk level assigned to a numeric risk score (`model.py` lines 288-297). -/
def risk_level (s : ℤ) : String :=
  if 80 ≤ s then "CRITICAL"
  else if 60 ≤ s then "HIGH"
  else if 40 ≤ s then "MEDIUM"
  else if 20 ≤ s then "LOW"
  else "SAFE"

/-- Anomaly flag assigned to a numeric risk score (`model.py` line 308). -/
def anomaly_detected (s : ℤ) : Bool :=
  decide (50 < s)

/-! ## Raw event records

A parsed CloudTrail record carries 18 positional fields.  The two error
fields may be absent in the raw data (pandas `NaN`), which is modelled with
`Option`; the remaining fields are plain strings. -/

structure RawEvent where
  eventID : String
  eventTime : String
  sourceIPAddress : String
  userAgent : String
  eventName : String
  eventSource : String
  awsRegion : String
  eventVersion : String
  userIdentitytype : String
  eventType : String
  userIdentityaccountId : String
  userIdentityprincipalId : String
  userIdentityarn : String
  userIdentityaccessKeyId : String
  userIdentityuserName : String
  errorCode : Option String
  errorMessage : Option String
  requestParametersinstanceType : String
deriving DecidableEq

namespace Proto

/-! ## FirstPrototype feature derivation and scoring
(`PreviousSubmissions/FirstPrototype/server/routes/api.py`, `model_evaluate`
lines 283-492; `process_random_log` repeats the same derivations). -/

/-- Error-code normalization: `df['errorCode'].fillna('NoError')`
(api.py line 310). -/
def errorCodeNorm (r : RawEvent) : String :=
  r.errorCode.getD "NoError"

/-- Root-identity feature (api.py line 313). -/
def isRootUser (r : RawEvent) : Bool :=
  r.userIdentitytype == "Root"

/-- IP octet extraction (api.py lines 316-320).  When the IP splits into at
least two parts the source calls `int()` on the first two parts without any
guard, so a non-numeric part raises `ValueError` (modelled by `none`); with
fewer than two parts it returns `(0, 0)`. -/
def extract_ip_features (ip : String) : Option (Int × Int) :=
  let parts := pySplit ip '.'
  if 2 ≤ parts.length then
    match pyInt (parts.getD 0 ""), pyInt (parts.getD 1 "") with
    | some a, some b => some (a, b)
    | _, _ => none
  else some (0, 0)

/-- Verb list for the sensitive-action feature (api.py line 330). -/
def sensitive_actions : List String :=
  ["Create", "Delete", "Modify", "Put", "Update"]

/-- Sensitive-action feature: the event name contains one of the fixed verbs
as a substring (api.py lines 331-333). -/
def is_sensitive_action (r : RawEvent) : Bool :=
  sensitive_actions.any (fun a => containsSub r.eventName a)

/-- Error feature (api.py line 336): computed from the `errorMessage` column,
`0 if x == 'NoError' else 1`.  A missing message compares unequal to the
sentinel and therefore flags an error. -/
def has_error (r : RawEvent) : Bool :=
  !(r.errorMessage == some "NoError")

/-- Rule-based fallback base score (api.py lines 435-462): a chain of
`np.where` assignments over the three flags; each later assignment overwrites
the earlier ones where its own condition holds. -/
def fallback_base_score (root sens err : Bool) : Int :=
  let s0 : Int := 0
  let s1 := if root && sens then 40 else s0
  let s2 := if root && err then 35 else s1
  let s3 := if sens && err then 30 else s2
  let s4 := if root && !sens && !err then 25 else s3
  let s5 := if sens && !root && !err then 20 else s4
  if err && !root && !sens then 15 else s5

/-- Event names always treated as high risk on the model path
(api.py line 424). -/
def high_risk_events : List String :=
  ["CreatePolicyVersion", "PutBucketPolicy", "DeleteUser", "CreateUser", "DeleteRole"]

/-- Events the model path forces to anomalous scoring (api.py lines 425-427). -/
def should_be_anomaly (r : RawEvent) : Bool :=
  high_risk_events.contains r.eventName || (isRootUser r && is_sensitive_action r)

/-- Base score on the model path (api.py lines 420-432): 50 for a predicted
anomaly plus 50 for a missed high-risk pattern. -/
def model_base_score (r : RawEvent) (anomaly : Bool) : Int :=
  (if anomaly then 50 else 0) + (if !anomaly && should_be_anomaly r then 50 else 0)

/-- Aggregate rule flag (api.py lines 402-414): root with a sensitive action,
or a non-sentinel error code, or a first IP octet above 255. -/
def rule_flags (r : RawEvent) (ip_first : Int) : Bool :=
  (isRootUser r && is_sensitive_action r) ||
  !(errorCodeNorm r == "NoError") ||
  decide (255 < ip_first)

/-- Sum of the three fixed additive bonuses of the claim: +10 root identity,
+10 sensitive action, +10 error present. -/
def bonus_score (r : RawEvent) : Int :=
  (if isRootUser r then 10 else 0) +
  (if is_sensitive_action r then 10 else 0) +
  (if has_error r then 10 else 0)

/-- Risk score computed by `model_evaluate` (api.py lines 416-484), as a
function of the parsed record, whether the model artifact loaded, and the
model's anomaly verdict.  `none` models the `ValueError` escaping from the IP
extraction. -/
def model_evaluate_score (r : RawEvent) (modelLoaded anomaly : Bool) : Option Int :=
  match extract_ip_features r.sourceIPAddress with
  | none => none
  | some (ip1, _ip2) =>
    let base : Int :=
      if modelLoaded then model_base_score r anomaly
      else fallback_base_score (isRootUser r) (is_sensitive_action r) (has_error r)
    let ruleScore : Int := if rule_flags r ip1 then 20 else 0
    let s1 := base + ruleScore
    let s2 := s1 + (if isRootUser r then 10 else 0)
    let s3 := s2 + (if is_sensitive_action r then 10 else 0)
    let s4 := s3 + (if has_error r then 10 else 0)
    some (min 100 s4)

end Proto

/-- Sample record whose raw error code is absent (normalized to the sentinel)
while its error message is the empty string. -/
def evNoCode : RawEvent :=
  { eventID := "e-1", eventTime := "2019-01-01T00:00:00Z",
    sourceIPAddress := "10.0.0.1", userAgent := "aws-cli", eventName := "GetObject",
    eventSource := "s3.amazonaws.com", awsRegion := "us-east-1", eventVersion := "1.08",
    userIdentitytype := "IAMUser", eventType := "AwsApiCall",
    userIdentityaccountId := "111122223333", userIdentityprincipalId := "PRIN",
    userIdentityarn := "arn:aws:iam::111122223333:user/bob",
    userIdentityaccessKeyId := "AKIA", userIdentityuserName := "bob",
    errorCode := none, errorMessage := some "",
    requestParametersinstanceType := "t2.micro" }

/-- Sample record with a real error code but the sentinel in the message
field. -/
def evCodeOnly : RawEvent :=
  { evNoCode with errorCode := some "AccessDenied", errorMessage := some "NoError" }

/-- Sample record with a root identity performing a sensitive action. -/
def evRootDelete : RawEvent :=
  { evNoCode with
    eventName := "DeleteBucket"
    userIdentitytype := "Root"
    errorCode := some "NoError"
    errorMessage := some "NoError" }

/-- Last-write-wins reading of the fallback table: the later conditions of
the chain take precedence, so sensitive+error yields 30 even when the root
flag is also set, and root+sensitive yields 40 only when no error is
present. -/
def fallback_table_amended (root sens err : Bool) : Int :=
  if sens && err then 30
  else if root && sens then 40
  else if root && err then 35
  else if root then 25
  else if sens then 20
  else if err then 15
  else 0

namespace Web

/-! ## WebForCSPM parsing and feature derivation
(`WebForCSPM/server/model.py`, `parse_log_string` lines 41-77 and
`preprocess_data` lines 79-106). -/

/-- Field splitting of `parse_log_string` (model.py lines 59-77): strip the
raw string, split on the pipe, and reject any field count other than 18
(`ValueError`, modelled by `none`).  The dictionary of the source is carried
as the positional list of the 18 values. -/
def parse_log_string (log_string : String) : Option (List String) :=
  let values := pySplit (pyStrip log_string) '|'
  if values.length = 18 then some values else none

/-- First IP octet (model.py line 97): the part before the first dot parses
as its integer value when it is all digits, otherwise 0.  The `int()` call is
guarded by `isdigit`, so it can never raise. -/
def ip_first_octet (x : String) : Option Int :=
  if pyIsDigit ((pySplit x '.').headD "") then pyInt ((pySplit x '.').headD "")
  else some 0

/-- Second IP octet (model.py line 98): 0 whenever there is no second part or
it is not all digits. -/
def ip_second_octet (x : String) : Option Int :=
  let parts := pySplit x '.'
  if 1 < parts.length && pyIsDigit (parts.getD 1 "") then pyInt (parts.getD 1 "")
  else some 0

/-- Suspicious-ARN flag (model.py line 101):
`re.search(r'admin|root|super', x, re.IGNORECASE)`. -/
def has_suspicious_arn (x : String) : Bool :=
  containsSub x.toLower "admin" || containsSub x.toLower "root" ||
    containsSub x.toLower "super"

end Web

/-! ## Retention manager (`WebForCSPM/server/models.py`, `LogManager.add_log`
lines 107-166; `DeploymentManager.add_deployment` and
`TicketManager.create_ticket` repeat the same logic with cap 100).

The store is restricted to a single identity: `records` is the list of
timestamps of that identity's persisted documents (most recent insert
first), and `counter` is the identity's denormalized `log_count` field,
absent when the document has never carried it. -/

/-- Per-identity slice of the document store. -/
structure RetentionState where
  records : List Int
  counter : Option Int
deriving DecidableEq

/-- Insert a value into a descending-sorted list. -/
def insertDesc (x : Int) : List Int → List Int
  | [] => [x]
  | y :: ys => if y ≤ x then x :: y :: ys else y :: insertDesc x ys

/-- Sort a list of timestamps in descending order: the model of the store's
`find(...).sort('timestamp', -1)`. -/
def sortDesc (l : List Int) : List Int :=
  l.foldr insertDesc []

/-- One run of `LogManager.add_log` for a given cap (models.py lines
108-166): insert the record; lazily initialize the counter from the current
document count (which already includes the new record); atomically increment
it; and when the incremented counter exceeds the cap, fetch the newest `cap`
records, take the oldest of them as the cutoff, delete everything strictly
older, and reset the counter to the cap. -/
def add_log (cap : Int) (ts : Int) (st : RetentionState) : RetentionState :=
  let recs := ts :: st.records
  let c0 : Int :=
    match st.counter with
    | none => (recs.length : Int)
    | some c => c
  let c1 := c0 + 1
  if cap < c1 then
    let kept := (sortDesc recs).take cap.toNat
    match kept.getLast? with
    | some cutoff =>
      { records := recs.filter (fun t => !decide (t < cutoff)), counter := some cap }
    | none => { records := recs, counter := some c1 }
  else { records := recs, counter := some c1 }

/-! ## Urgent-issue clustering (`WebForCSPM/server/models.py`,
`LogManager.get_urgent_issue_groups` lines 412-478).

Stored events are reduced to the three fields the algorithm inspects;
timestamps are in seconds.  The Python loop over list indices with a `used`
set is embedded as structural recursion over the index-annotated list,
threading the list of used indices. -/

/-- Fields of a stored log inspected by the clustering algorithm. -/
structure StoredLog where
  user_identity_type : String
  source_ip : String
  ts : Int
deriving DecidableEq

/-- Inclusion test of the inner scan (models.py lines 439-443): the candidate
is not yet clustered, shares the anchor's identity type and source IP, and
lies within the window anchored at the anchor's timestamp. -/
def clusterCond (anchor : StoredLog) (w : Int) (used : List Nat)
    (p : Nat × StoredLog) : Bool :=
  !(used.contains p.1) &&
  (p.2.user_identity_type == anchor.user_identity_type) &&
  (p.2.source_ip == anchor.source_ip) &&
  decide (|p.2.ts - anchor.ts| ≤ w * 60)

/-- Candidate members collected by the inner scan for a given anchor
(models.py lines 437-445). -/
def candidate_members (e : StoredLog) (w : Int) (used1 : List Nat)
    (rest : List (Nat × StoredLog)) : List (Nat × StoredLog) :=
  rest.filter (clusterCond e w used1)

/-- Outer loop of the grouping (models.py lines 428-447): skip indices that
are already used; otherwise anchor a candidate group at the current event,
collect the matching later events, mark everything used, and emit the group
only when it reaches the minimum size. -/
def groupScan (w : Int) (minSize : Nat) :
    List (Nat × StoredLog) → List Nat → List (List StoredLog)
  | [], _ => []
  | (i, e) :: rest, used =>
    if used.contains i then groupScan w minSize rest used
    else
      (if minSize ≤ (e :: (candidate_members e w (i :: used) rest).map Prod.snd).length
       then [e :: (candidate_members e w (i :: used) rest).map Prod.snd] else []) ++
      groupScan w minSize rest ((i :: used) ++ (candidate_members e w (i :: used) rest).map Prod.fst)

/-- The grouping over the per-identity snapshot fetched sorted ascending by
timestamp; `w` is the time window in minutes. -/
def get_urgent_issue_groups (logs : List StoredLog) (w : Int) (minSize : Nat) :
    List (List StoredLog) :=
  groupScan w minSize logs.enum []

/-- The five reason branches of models.py lines 453-462, in source order. -/
inductive ReasonKind where
  | rapidActivity
  | sameUserSameIp
  | sameUserMultipleIps
  | multipleUsersSameIp
  | activityCluster
deriving DecidableEq

/-- Selection of the emitted group's `main_reason` (models.py lines 448-462):
the time span in minutes between first and last member, and the counts of
distinct identity types and source IPs, drive a first-match-wins chain. -/
def main_reason_kind : List StoredLog → ReasonKind
  | [] => ReasonKind.activityCluster
  | e :: tl =>
    if ((((e :: tl).getLast?.getD e).ts - e.ts : Int) : ℚ) / 60 ≤ 2 then
      ReasonKind.rapidActivity
    else if ((e :: tl).map (fun x => x.user_identity_type)).dedup.length = 1 ∧
        ((e :: tl).map (fun x => x.source_ip)).dedup.length = 1 then
      ReasonKind.sameUserSameIp
    else if ((e :: tl).map (fun x => x.user_identity_type)).dedup.length = 1 then
      ReasonKind.sameUserMultipleIps
    else if ((e :: tl).map (fun x => x.source_ip)).dedup.length = 1 then
      ReasonKind.multipleUsersSameIp
    else ReasonKind.activityCluster

/-- Concrete snapshot used by the witness of the reason invariant. -/
def snapshotW : List StoredLog :=
  [⟨"Root", "8.8.8.8", 0⟩, ⟨"Root", "8.8.8.8", 60⟩, ⟨"Root", "8.8.8.8", 120⟩]

/-- Concrete anchor used by the witness of the anchored-window claim. -/
def anchorW : StoredLog :=
  ⟨"Root", "9.9.9.9", 0⟩

/-- Concrete indexed candidate used by the witness of the anchored-window
claim. -/
def memberW : Nat × StoredLog :=
  (1, ⟨"Root", "9.9.9.9", 30⟩)

/-! ## Theorems -/

/-- Evaluation of `pyInt` on an all-digit string: the guarded `int()` call of
the WebForCSPM octet extraction always succeeds. -/
theorem pyInt_of_pyIsDigit (s : String) (h : pyIsDigit s = true) :
    pyInt s = some (digitsVal s.toList) := by
  unfold pyIsDigit at h
  unfold pyInt
  cases hs : s.toList with
  | nil =>
    rw [hs] at h
    simp at h
  | cons c cs =>
    rw [hs] at h
    simp only [Bool.and_eq_true, List.all_cons] at h
    have hcd : c.isDigit = true := h.2.1
    have hminus : (c == '-') = false := by
      by_contra hx
      rw [Bool.not_eq_false, beq_iff_eq] at hx
      subst hx
      simp [Char.isDigit] at hcd
    have hplus : (c == '+') = false := by
      by_contra hx
      rw [Bool.not_eq_false, beq_iff_eq] at hx
      subst hx
      simp [Char.isDigit] at hcd
    simp [hminus, hplus, List.all_cons, hcd, h.2.2]

/-- Auxiliary: inserting into a list grows its length by one. -/
theorem insertDesc_length (x : Int) (l : List Int) :
    (insertDesc x l).length = l.length + 1 := by
  induction l with
  | nil => rfl
  | cons y ys ih =>
    unfold insertDesc
    by_cases h : y ≤ x
    · rw [if_pos h]
      rfl
    · rw [if_neg h]
      simp [ih]

/-- Auxiliary: descending sorting preserves length. -/
theorem sortDesc_length (l : List Int) : (sortDesc l).length = l.length := by
  induction l with
  | nil => rfl
  | cons y ys ih =>
    unfold sortDesc at ih ⊢
    simp [List.foldr_cons, insertDesc_length, ih]

/-- Auxiliary: every group produced by the outer loop consists of an anchor
followed by members that passed the candidate filter, so every member shares
the anchor's identity type and source IP, and the group reached the minimum
size. -/
theorem groupScan_mem_shape (w : Int) (minSize : Nat) :
    ∀ (l : List (Nat × StoredLog)) (used : List Nat) (g : List StoredLog),
      g ∈ groupScan w minSize l used →
      ∃ e tl, g = e :: tl ∧ minSize ≤ g.length ∧
        ∀ x ∈ tl, x.user_identity_type = e.user_identity_type ∧
          x.source_ip = e.source_ip := by
  intro l
  induction l with
  | nil =>
    intro used g hg
    simp [groupScan] at hg
  | cons q rest ih =>
    intro used g hg
    obtain ⟨i, e⟩ := q
    rw [groupScan] at hg
    by_cases h : used.contains i
    · rw [if_pos h] at hg
      exact ih used g hg
    · rw [if_neg h] at hg
      rcases List.mem_append.mp hg with h1 | h2
      · by_cases hsz :
          minSize ≤ (e :: (candidate_members e w (i :: used) rest).map Prod.snd).length
        · rw [if_pos hsz, List.mem_singleton] at h1
          subst h1
          refine ⟨e, (candidate_members e w (i :: used) rest).map Prod.snd, rfl, hsz, ?_⟩
          intro x hx
          obtain ⟨p, hp, rfl⟩ := List.mem_map.mp hx
          have hc := List.of_mem_filter (p := clusterCond e w (i :: used)) hp
          simp only [clusterCond, Bool.and_eq_true, beq_iff_eq] at hc
          exact ⟨hc.1.1.2, hc.1.2⟩
        · rw [if_neg hsz] at h1
          simp at h1
      · exact ih _ g h2

/-- Auxiliary: deduplicating a nonempty constant list leaves a single
element. -/
theorem dedup_of_all_eq {α : Type} [DecidableEq α] (a : α) :
    ∀ l : List α, (∀ x ∈ l, x = a) → (a :: l).dedup = [a] := by
  intro l
  induction l with
  | nil =>
    intro _
    simp
  | cons b tl ih =>
    intro h
    have hb : b = a := h b (by simp)
    subst hb
    rw [List.dedup_cons_of_mem (by simp)]
    exact ih fun x hx => h x (by simp [hx])

/-- C1: the ensemble scorer as implemented does not clamp the shaped score.
When all three sub-scores attain their maxima (isolation signal and
reconstruction error at their 99.9th-percentile thresholds, random-forest
probability 1) the blend is 100, the shaping multiplies by 1.2, and the
returned score is 120 — outside [0,100] and different from the clamped value
the specification describes.  This contradicts the function's own docstring
("Returns: int: Risk score (0-100)"). -/
theorem C1_score_not_clamped :
    score_single_log_corrected ⟨10, 5, 2, 0⟩ ⟨10, 5, 2, 0⟩ 10 1 10 = 120 ∧
    score_single_log_clamped ⟨10, 5, 2, 0⟩ ⟨10, 5, 2, 0⟩ 10 1 10 = 100 ∧
    ¬ (score_single_log_corrected ⟨10, 5, 2, 0⟩ ⟨10, 5, 2, 0⟩ 10 1 10 ≤ 100) := by
  refine ⟨?_, ?_, ?_⟩ <;>
    norm_num [score_single_log_corrected, score_single_log_clamped,
      iso_risk, rf_risk, ae_risk, pyRound]

/-- C2: the risk classifier assigns CRITICAL iff the score is at least 80,
HIGH iff it is in [60,80), MEDIUM iff in [40,60), LOW iff in [20,40), SAFE
iff below 20, and flags an anomaly iff the score exceeds 50; the claimed
boundary values classify as listed. -/
theorem C2_risk_level_thresholds :
    (∀ s : ℤ,
      (risk_level s = "CRITICAL" ↔ 80 ≤ s) ∧
      (risk_level s = "HIGH" ↔ 60 ≤ s ∧ s < 80) ∧
      (risk_level s = "MEDIUM" ↔ 40 ≤ s ∧ s < 60) ∧
      (risk_level s = "LOW" ↔ 20 ≤ s ∧ s < 40) ∧
      (risk_level s = "SAFE" ↔ s < 20) ∧
      (anomaly_detected s = true ↔ 50 < s)) ∧
    risk_level 80 = "CRITICAL" ∧ risk_level 79 = "HIGH" ∧
    risk_level 60 = "HIGH" ∧ risk_level 59 = "MEDIUM" ∧
    risk_level 40 = "MEDIUM" ∧ risk_level 39 = "LOW" ∧
    risk_level 20 = "LOW" ∧ risk_level 19 = "SAFE" ∧
    risk_level 0 = "SAFE" := by
  constructor
  · intro s
    unfold risk_level anomaly_detected
    split_ifs with h1 h2 h3 h4 <;>
      refine ⟨?_, ?_, ?_, ?_, ?_, ?_⟩ <;>
      constructor <;> intro h <;>
      first
        | rfl
        | omega
        | (exact absurd h (by decide))
        | (exact absurd rfl (by omega))
        | (exact of_decide_eq_true h)
        | (exact decide_eq_true h)
  · refine ⟨?_, ?_, ?_, ?_, ?_, ?_, ?_, ?_, ?_⟩ <;> decide

/-- Witness for C2 at a concrete score. -/
theorem C2_risk_level_thresholds_witness :
    risk_level 85 = "CRITICAL" ↔ (80 : ℤ) ≤ 85 :=
  (C2_risk_level_thresholds.1 85).1

/-- C3: the candidate scan includes a later event exactly when it is still
unclustered, has the anchor's identity type and source IP, and lies within
the window anchored at the anchor (not at the previously added member); the
outer loop opens a candidate group at every unclustered event and emits it
exactly when it reaches the minimum size; and on the concrete scenario of
the claim (four events with one identity and IP at minutes 0, 1, 2 and 50,
window 10 minutes, minimum size 3) exactly one cluster is returned, holding
the first three events, while the fourth forms no cluster. -/
theorem C3_anchored_window :
    (∀ (e : StoredLog) (w : Int) (used : List Nat) (rest : List (Nat × StoredLog))
        (p : Nat × StoredLog),
      p ∈ candidate_members e w used rest ↔
        (p ∈ rest ∧ ¬ p.1 ∈ used ∧
          p.2.user_identity_type = e.user_identity_type ∧
          p.2.source_ip = e.source_ip ∧
          |p.2.ts - e.ts| ≤ w * 60)) ∧
    (∀ (w : Int) (minSize i : Nat) (e : StoredLog) (rest : List (Nat × StoredLog))
        (used : List Nat),
      groupScan w minSize ((i, e) :: rest) used =
        if used.contains i then groupScan w minSize rest used
        else
          (if minSize ≤ (e :: (candidate_members e w (i :: used) rest).map Prod.snd).length
           then [e :: (candidate_members e w (i :: used) rest).map Prod.snd] else []) ++
          groupScan w minSize rest
            ((i :: used) ++ (candidate_members e w (i :: used) rest).map Prod.fst)) ∧
    get_urgent_issue_groups
        [⟨"Root", "1.2.3.4", 0⟩, ⟨"Root", "1.2.3.4", 60⟩,
         ⟨"Root", "1.2.3.4", 120⟩, ⟨"Root", "1.2.3.4", 3000⟩] 10 3 =
      [[⟨"Root", "1.2.3.4", 0⟩, ⟨"Root", "1.2.3.4", 60⟩, ⟨"Root", "1.2.3.4", 120⟩]] := by
  refine ⟨?_, ?_, ?_⟩
  · intro e w used rest p
    simp [candidate_members, clusterCond, List.mem_filter, and_assoc]
  · intro w minSize i e rest used
    rw [groupScan]
  · decide

/-- Witness for C3 at a concrete anchor and candidate. -/
theorem C3_anchored_window_witness :
    memberW ∈ candidate_members anchorW 10 [] [memberW] ↔
      (memberW ∈ [memberW] ∧ ¬ memberW.1 ∈ ([] : List Nat) ∧
        memberW.2.user_identity_type = anchorW.user_identity_type ∧
        memberW.2.source_ip = anchorW.source_ip ∧
        |memberW.2.ts - anchorW.ts| ≤ 10 * 60) :=
  C3_anchored_window.1 anchorW 10 [] [memberW] memberW

/-- C4: whenever the incremented per-identity counter exceeds the cap, the
eviction pass of `add_log` keeps exactly the records at least as new as the
cutoff (the oldest of the newest `cap` records) — deleting exactly the
strictly older ones — and resets the counter to exactly the cap; and in the
concrete scenario of the claim (cap 3, five inserts with strictly increasing
timestamps into a fresh identity) exactly the three newest records remain,
with the counter at 3. -/
theorem C4_eviction (cap ts c : Int) (recs : List Int)
    (hover : cap < c + 1) (hcap : 1 ≤ cap) :
    (∃ cutoff,
      ((sortDesc (ts :: recs)).take cap.toNat).getLast? = some cutoff ∧
      add_log cap ts ⟨recs, some c⟩ =
        ⟨(ts :: recs).filter (fun t => !decide (t < cutoff)), some cap⟩) ∧
    List.foldl (fun st t => add_log 3 t st) ⟨[], some 0⟩ [10, 20, 30, 40, 50] =
      ⟨[50, 40, 30], some 3⟩ := by
  constructor
  · have hne : ((sortDesc (ts :: recs)).take cap.toNat) ≠ [] := by
      have hlen : ((sortDesc (ts :: recs)).take cap.toNat).length =
          min cap.toNat (recs.length + 1) := by
        rw [List.length_take, sortDesc_length]
        rfl
      intro hnil
      rw [hnil] at hlen
      simp only [List.length_nil] at hlen
      have : 1 ≤ cap.toNat := by omega
      omega
    obtain ⟨cutoff, hcut⟩ := Option.ne_none_iff_exists'.mp (mt List.getLast?_eq_none_iff.mp hne)
    refine ⟨cutoff, hcut, ?_⟩
    unfold add_log
    simp only [if_pos hover, hcut]
  · decide

/-- Witness for C4: the eviction branch at a concrete over-cap state (cap 1,
one pre-existing record) produces a cutoff and the filtered store. -/
theorem C4_eviction_witness :
    ((1 : Int) < 2 + 1 ∧ (1 : Int) ≤ 1) ∧
    (∃ cutoff,
      ((sortDesc ([7] ++ [3])).take (1 : Int).toNat).getLast? = some cutoff ∧
      add_log 1 7 ⟨[3], some 2⟩ =
        ⟨([7] ++ [3]).filter (fun t => !decide (t < cutoff)), some 1⟩) :=
  ⟨⟨by decide, by decide⟩, (C4_eviction 1 7 2 [3] (by decide) (by decide)).1⟩

/-- C5: on every event record that scores without an exception, and on both
scoring paths (model loaded or rule-based fallback), the final risk score is
the clamp to at most 100 of the path's base score, plus the aggregate rule
score, plus exactly the three fixed additive bonuses (+10 root identity,
+10 sensitive action, +10 error present), applied before the clamp. -/
theorem C5_fixed_bonuses (r : RawEvent) (modelLoaded anomaly : Bool) :
    Proto.model_evaluate_score r modelLoaded anomaly =
      (Proto.extract_ip_features r.sourceIPAddress).map (fun ip =>
        min 100
          ((if modelLoaded then Proto.model_base_score r anomaly
            else Proto.fallback_base_score (Proto.isRootUser r)
              (Proto.is_sensitive_action r) (Proto.has_error r)) +
           (if Proto.rule_flags r ip.1 then 20 else 0) +
           Proto.bonus_score r)) := by
  rcases h : Proto.extract_ip_features r.sourceIPAddress with _ | ⟨ip1, ip2⟩
  · simp [Proto.model_evaluate_score, h]
  · simp only [Proto.model_evaluate_score, Proto.bonus_score, h, Option.map_some']
    congr 2
    omega

/-- Witness for C5 at a concrete record on the fallback path. -/
theorem C5_fixed_bonuses_witness :
    Proto.model_evaluate_score evRootDelete false false =
      (Proto.extract_ip_features evRootDelete.sourceIPAddress).map (fun ip =>
        min 100
          ((if false then Proto.model_base_score evRootDelete false
            else Proto.fallback_base_score (Proto.isRootUser evRootDelete)
              (Proto.is_sensitive_action evRootDelete) (Proto.has_error evRootDelete)) +
           (if Proto.rule_flags evRootDelete ip.1 then 20 else 0) +
           Proto.bonus_score evRootDelete)) :=
  C5_fixed_bonuses evRootDelete false false

/-- C6 counterexample: `has_error` is not a function of the normalized error
code.  For `evNoCode` the normalized error code is exactly the sentinel yet
`has_error` is 1, and for `evCodeOnly` the normalized error code is
"AccessDenied" yet `has_error` is 0 — both directions of the claimed
equivalence fail, because the source derives `has_error` from the
`errorMessage` column. -/
theorem C6_counterexample :
    Proto.errorCodeNorm evNoCode = "NoError" ∧ Proto.has_error evNoCode = true ∧
    Proto.errorCodeNorm evCodeOnly = "AccessDenied" ∧ Proto.has_error evCodeOnly = false := by
  refine ⟨rfl, rfl, rfl, rfl⟩

/-- C6 amended: the error-code field is normalized to the sentinel "NoError"
when absent, but the derived `has_error` feature is computed from the
error-message field instead: it is 0 if and only if the raw error message
equals "NoError", otherwise 1. -/
theorem C6_amended (r : RawEvent) :
    (Proto.has_error r = false ↔ r.errorMessage = some "NoError") ∧
    Proto.errorCodeNorm r = r.errorCode.getD "NoError" ∧
    (r.errorCode = none → Proto.errorCodeNorm r = "NoError") := by
  refine ⟨?_, rfl, ?_⟩
  · simp [Proto.has_error]
  · intro h
    simp [Proto.errorCodeNorm, h]

/-- Witness for C6 at a concrete record: the inner hypothesis (absent error
code) is discharged by `rfl`. -/
theorem C6_amended_witness :
    Proto.errorCodeNorm evNoCode = "NoError" ∧ Proto.has_error evNoCode ≠ false :=
  ⟨(C6_amended evNoCode).2.2 rfl, by
    intro h
    exact absurd ((C6_amended evNoCode).1.mp h) (by decide)⟩

/-- C7 counterexample: with all three flags set (root identity, sensitive
action, error) the fallback base score is 30, not the claimed 40 — the
`np.where` chain lets the sensitive+error assignment overwrite the earlier
root+sensitive one. -/
theorem C7_counterexample :
    Proto.fallback_base_score true true true = 30 ∧
    ¬ Proto.fallback_base_score true true true = 40 := by
  refine ⟨rfl, by decide⟩

/-- C7 amended: the fallback base score equals the last-write-wins table:
sensitive+error yields 30 regardless of the root flag (including the
all-three-flags case), root+sensitive without error yields 40, root+error
without a sensitive action yields 35, root-only 25, sensitive-only 20,
error-only 15, otherwise 0. -/
theorem C7_amended (root sens err : Bool) :
    Proto.fallback_base_score root sens err = fallback_table_amended root sens err := by
  cases root <;> cases sens <;> cases err <;> rfl

/-- Witness for C7 at a concrete flag combination. -/
theorem C7_amended_witness :
    Proto.fallback_base_score true false true = fallback_table_amended true false true :=
  C7_amended true false true

/-- C8 counterexample: the lazy counter initialization runs after the insert,
so it counts the new record, and the unconditional atomic increment then runs
on top of it.  Inserting one record into a fresh identity whose counter field
is absent leaves one persisted record but a counter of 2. -/
theorem C8_counterexample :
    add_log 10000 0 ⟨[], none⟩ = ⟨[0], some 2⟩ ∧
    (add_log 10000 0 ⟨[], none⟩).records.length = 1 ∧
    ¬ ((2 : Int) = 1) := by
  refine ⟨by decide, by decide, by decide⟩

/-- C8 amended: when the counter field is absent at insert time it is
initialized from the post-insert record count and then still incremented, so
(in a sequential run that does not trigger eviction) the stored counter ends
at the actual number of persisted records plus one, not at the actual
count. -/
theorem C8_amended (cap ts : Int) (recs : List Int)
    (hroom : (recs.length : Int) + 2 ≤ cap) :
    (add_log cap ts ⟨recs, none⟩).counter = some ((recs.length : Int) + 2) ∧
    (add_log cap ts ⟨recs, none⟩).records.length = recs.length + 1 := by
  have hnot : ¬ cap < (recs.length : Int) + 1 + 1 := by omega
  simp only [add_log, List.length_cons, Nat.cast_add, Nat.cast_one, if_neg hnot]
  constructor
  · show some ((recs.length : Int) + 1 + 1) = some ((recs.length : Int) + 2)
    congr 1
  · simp

/-- Witness for C8 at a concrete fresh identity with room under the cap. -/
theorem C8_amended_witness :
    (((([] : List Int).length : Int) + 2 ≤ 10000) ∧
      (add_log 10000 5 ⟨[], none⟩).counter = some ((([] : List Int).length : Int) + 2) ∧
      (add_log 10000 5 ⟨[], none⟩).records.length = ([] : List Int).length + 1) :=
  ⟨by decide, C8_amended 10000 5 [] (by decide)⟩

/-- C9 counterexample: the FirstPrototype octet extraction is not total and
does not default a non-numeric octet to 0.  On the source IP "1.a" the split
has two parts, so the unguarded `int('a')` raises `ValueError` (`none`);
the claimed result, first octet 1 and second octet 0, is not produced. -/
theorem C9_counterexample :
    Proto.extract_ip_features "1.a" = none ∧
    ¬ Proto.extract_ip_features "1.a" = some (1, 0) := by
  refine ⟨by decide, by decide⟩

/-- C9 amended: the WebForCSPM pipeline is total as claimed — an 18-field
input always parses, and each octet derivation always returns a value, with
0 whenever the corresponding part is non-numeric or absent.  (The earlier
FirstPrototype helper `extract_ip_features` is the exception recorded in the
counterexample: it raises on a non-numeric octet when at least two parts are
present.) -/
theorem C9_amended :
    (∀ s : String, (pySplit (pyStrip s) '|').length = 18 →
      ∃ vs, Web.parse_log_string s = some vs ∧ vs.length = 18) ∧
    (∀ x : String, ∃ a, Web.ip_first_octet x = some a ∧
      (pyIsDigit ((pySplit x '.').headD "") = false → a = 0)) ∧
    (∀ x : String, ∃ b, Web.ip_second_octet x = some b ∧
      ((1 < (pySplit x '.').length && pyIsDigit ((pySplit x '.').getD 1 "")) = false →
        b = 0)) := by
  refine ⟨?_, ?_, ?_⟩
  · intro s hs
    exact ⟨pySplit (pyStrip s) '|', by simp [Web.parse_log_string, hs], hs⟩
  · intro x
    by_cases h : pyIsDigit ((pySplit x '.').headD "") = true
    · refine ⟨digitsVal ((pySplit x '.').headD "").toList, ?_,
        fun hf => by rw [h] at hf; exact absurd hf (by decide)⟩
      unfold Web.ip_first_octet
      rw [if_pos h]
      exact pyInt_of_pyIsDigit _ h
    · refine ⟨0, ?_, fun _ => rfl⟩
      unfold Web.ip_first_octet
      rw [if_neg h]
  · intro x
    by_cases h : (1 < (pySplit x '.').length && pyIsDigit ((pySplit x '.').getD 1 "")) = true
    · have hd : pyIsDigit ((pySplit x '.').getD 1 "") = true :=
        (Bool.and_eq_true _ _ |>.mp h).2
      refine ⟨digitsVal ((pySplit x '.').getD 1 "").toList, ?_,
        fun hf => by rw [h] at hf; exact absurd hf (by decide)⟩
      unfold Web.ip_second_octet
      rw [if_pos h]
      exact pyInt_of_pyIsDigit _ hd
    · refine ⟨0, ?_, fun _ => rfl⟩
      unfold Web.ip_second_octet
      rw [if_neg h]

/-- Witness for C9 at concrete inputs: a concrete 18-field raw string parses,
and the octets of the malformed IP "abc.def" both default to 0 in the
WebForCSPM derivation. -/
theorem C9_amended_witness :
    (pySplit (pyStrip "1|2|3|4|5|6|7|8|9|10|11|12|13|14|15|16|17|18") '|').length = 18 ∧
    (∃ vs, Web.parse_log_string "1|2|3|4|5|6|7|8|9|10|11|12|13|14|15|16|17|18" = some vs ∧
      vs.length = 18) ∧
    (∃ a, Web.ip_first_octet "abc.def" = some a ∧
      (pyIsDigit ((pySplit "abc.def" '.').headD "") = false → a = 0)) :=
  ⟨by decide, C9_amended.1 _ (by decide), C9_amended.2.1 "abc.def"⟩

/-- C10: every emitted urgent-issue group consists of an anchor and members
that all share the anchor's identity type and source IP; consequently the
group has exactly one distinct identity type and one distinct source IP, and
the selected reason is always the rapid-activity branch or the
same-identity-same-IP branch — the multiple-IPs, multiple-identities and
generic activity-cluster branches are unreachable. -/
theorem C10_reason_invariant (logs : List StoredLog) (w : Int) (minSize : Nat)
    (g : List StoredLog) (hg : g ∈ get_urgent_issue_groups logs w minSize) :
    ∃ e tl, g = e :: tl ∧
      (∀ x ∈ tl, x.user_identity_type = e.user_identity_type ∧
        x.source_ip = e.source_ip) ∧
      (g.map (fun x => x.user_identity_type)).dedup.length = 1 ∧
      (g.map (fun x => x.source_ip)).dedup.length = 1 ∧
      (main_reason_kind g = ReasonKind.rapidActivity ∨
        main_reason_kind g = ReasonKind.sameUserSameIp) := by
  obtain ⟨e, tl, rfl, _hsz, hall⟩ := groupScan_mem_shape w minSize logs.enum [] g hg
  have huc : ∀ y ∈ tl.map (fun x => x.user_identity_type), y = e.user_identity_type := by
    intro y hy
    obtain ⟨x, hx, rfl⟩ := List.mem_map.mp hy
    exact (hall x hx).1
  have hic : ∀ y ∈ tl.map (fun x => x.source_ip), y = e.source_ip := by
    intro y hy
    obtain ⟨x, hx, rfl⟩ := List.mem_map.mp hy
    exact (hall x hx).2
  have huu : ((e :: tl).map (fun x => x.user_identity_type)).dedup.length = 1 := by
    rw [List.map_cons, dedup_of_all_eq _ _ huc]
    rfl
  have hui : ((e :: tl).map (fun x => x.source_ip)).dedup.length = 1 := by
    rw [List.map_cons, dedup_of_all_eq _ _ hic]
    rfl
  refine ⟨e, tl, rfl, hall, huu, hui, ?_⟩
  by_cases hspan : ((((e :: tl).getLast?.getD e).ts - e.ts : Int) : ℚ) / 60 ≤ 2
  · left
    rw [main_reason_kind, if_pos hspan]
  · right
    rw [main_reason_kind, if_neg hspan, if_pos ⟨huu, hui⟩]

/-- Witness for C10 at a concrete snapshot: three events with one identity
and IP form a group, whose reason is one of the two reachable branches. -/
theorem C10_reason_invariant_witness :
    (snapshotW ∈ get_urgent_issue_groups snapshotW 10 3) ∧
    (∃ e tl, snapshotW = e :: tl ∧
      (∀ x ∈ tl, x.user_identity_type = e.user_identity_type ∧
        x.source_ip = e.source_ip) ∧
      (snapshotW.map (fun x => x.user_identity_type)).dedup.length = 1 ∧
      (snapshotW.map (fun x => x.source_ip)).dedup.length = 1 ∧
      (main_reason_kind snapshotW = ReasonKind.rapidActivity ∨
        main_reason_kind snapshotW = ReasonKind.sameUserSameIp)) :=
  ⟨by decide, C10_reason_invariant snapshotW 10 3 snapshotW (by decide)⟩

end CSPM
